import Mathlib

/-!
Verification of the `job_agent` backend core against its natural-language
specification.

The development shallowly embeds the Python sources of the repository:

* `backend/loaders/job_description_loader.py` — heuristic job-posting extractor
  and URL/platform classifier;
* `backend/utils/profile_normalizer.py` — profile normalizer;
* `backend/utils/error_handler.py` — error taxonomy and retry policy;
* `backend/agents/modificator.py` — feedback-application orchestration;
* `backend/schemas/models.py` — the pydantic data models.

Modelling conventions:

* Python strings are Lean `String`s; `len`, slicing, `split`, `strip`,
  `lower`, `title`, `startswith` and `in` are re-implemented below with
  Python semantics restricted to ASCII case/whitespace classes (the
  repository only manipulates ASCII pattern text).
* The fixed regular expressions of the sources are compiled by hand into
  dedicated total matchers (`re_findall_sec`, `re_findall_line`,
  `re_split_sections`, anchored prefix strippers), one per pattern family
  actually occurring in the code, reproducing Python `re` semantics
  (greedy/lazy quantifiers, `IGNORECASE` on `[A-Z]`, `DOTALL` vs
  `MULTILINE` treatment of `.` and `$`) for those fixed patterns.
* Python exceptions are modelled with `Except`; `try/except` blocks become
  explicit `match`es on the `Except` value.
* pydantic v2 model construction (`models.py` imports
  `pydantic.root_model`, so pydantic is v2) is modelled field by field:
  unknown keyword arguments are ignored (the default `extra='ignore'`),
  missing required fields raise, and attribute access on an undeclared
  field raises `AttributeError`.
* CPython's `list(set(...))` enumerates a hash set in unspecified order;
  the embedding uses `List.dedup`, fixing one order.  Every property proved
  about it (length bound, duplicate freedom, membership) is
  order-independent.
-/

namespace JobAgent

/-- An apostrophe character, used to build the pattern text `what you'll do`
and Python `repr` output. -/
def apos : Char := Char.ofNat 39

/-- Python `\s` (ASCII part): the whitespace class used by `str.strip` and
the `re` patterns of the sources. -/
def isPyWs (c : Char) : Bool :=
  c == ' ' || c == '\t' || c == '\n' || c == '\r' || c == '\x0b' || c == '\x0c'

/-- Python `str.strip()` (ASCII whitespace). -/
def pyStrip (s : String) : String :=
  String.mk (((s.data.dropWhile isPyWs).reverse.dropWhile isPyWs).reverse)

/-- Python `str.lower()` (ASCII case). -/
def pyLower (s : String) : String :=
  String.mk (s.data.map Char.toLower)

/-- Drop an exact literal prefix, or fail. -/
def dropLPrefix : List Char → List Char → Option (List Char)
  | [], s => some s
  | _ :: _, [] => none
  | p :: ps, c :: cs => if c == p then dropLPrefix ps cs else none

/-- Substring scan: does `needle` occur at any position of the text?  (An
empty needle occurs everywhere, as in Python.) -/
def containsLGo (needle : List Char) : List Char → Bool
  | [] => (dropLPrefix needle []).isSome
  | s@(_ :: rest) => (dropLPrefix needle s).isSome || containsLGo needle rest

/-- Python `needle in hay` on strings: substring containment. -/
def pyIn (needle hay : String) : Bool :=
  containsLGo needle.data hay.data

/-- Scanning loop of `str.split(sep)` for a non-empty separator: leftmost,
non-overlapping; `acc` is the piece being accumulated (reversed). -/
def pySplitOnGo (sep : List Char) : Nat → List Char → List Char → List (List Char)
  | 0, acc, _ => [acc.reverse]
  | _ + 1, acc, [] => [acc.reverse]
  | fuel + 1, acc, s@(c :: rest) =>
    match dropLPrefix sep s with
    | some r => acc.reverse :: pySplitOnGo sep fuel [] r
    | none => pySplitOnGo sep fuel (c :: acc) rest

/-- Python `s.split(sep)` for the non-empty literal separators of the
sources. -/
def pySplitOn (s : String) (sep : String) : List String :=
  if sep == "" then [s]
  else (pySplitOnGo sep.data (s.data.length + 1) [] s.data).map String.mk

/-- Python `sep.join(parts)`. -/
def pyJoin (sep : String) : List String → String
  | [] => ""
  | [part] => part
  | part :: rest => part ++ sep ++ pyJoin sep rest

/-- Python `s.startswith(p)`. -/
def pyStartswith (s p : String) : Bool :=
  (dropLPrefix p.data s.data).isSome

/-- Python `s[n:]` (drop the first `n` characters). -/
def pyDrop (s : String) (n : Nat) : String :=
  String.mk (s.data.drop n)

/-- Python `str.title()` for the ASCII texts of the sources: uppercase every
letter that follows a non-letter, lowercase the other letters. -/
def pyTitleGo : Bool → List Char → List Char
  | _, [] => []
  | prevAlpha, c :: cs =>
    if c.isAlpha then
      (if prevAlpha then c.toLower else c.toUpper) :: pyTitleGo true cs
    else
      c :: pyTitleGo false cs

/-- Python `str.title()` (ASCII). -/
def pyTitle (s : String) : String :=
  String.mk (pyTitleGo false s.data)

/-- Truthiness of a Python `Optional[str]`: `None` and `""` are falsy. -/
def pyTruthy : Option String → Bool
  | none => false
  | some s => s != ""

/-!
### Hand-compiled matchers for the fixed regular expressions of the loader

All section-extraction patterns of `job_description_loader.py` have the shape

  `HEADER:?\s*\n?(.*?)(?:\n\n|\n[A-Z]|$)`   compiled with `IGNORECASE|DOTALL`

where `HEADER` is a literal with at most one optional character.  Under
`IGNORECASE` the class `[A-Z]` also matches `a`–`z`; under `DOTALL` the lazy
group can cross newlines; without `MULTILINE`, `$` matches at the end of the
string and just before a trailing newline.  The greedy `\s*` soaks up all
whitespace after the header (making `\n?` match empty), and because `$` is
always eventually reachable no backtracking into `\s*` occurs, so the lazy
group is the shortest extent whose right end is followed by `\n\n`,
`\n[A-Za-z]`, or an end-of-string position.  `re.findall` resumes scanning
after the consumed terminator.
-/

/-- Case-insensitive match of the literal `alt` (given lowercased) against a
prefix of `s`; returns the remainder on success. -/
def lowerPrefixDrop : List Char → List Char → Option (List Char)
  | [], s => some s
  | _ :: _, [] => none
  | p :: ps, c :: cs => if c.toLower == p then lowerPrefixDrop ps cs else none

/-- Try a list of literal alternatives (regex alternation / optional-character
expansions, in the order the regex engine tries them). -/
def matchAlts (alts : List (List Char)) (s : List Char) : Option (List Char) :=
  match alts with
  | [] => none
  | a :: rest =>
    match lowerPrefixDrop a s with
    | some r => some r
    | none => matchAlts rest s

/-- Consume `:?\s*\n?` after a matched header: optional colon, then greedy
whitespace (after which `\n?` can only match empty). -/
def dropHeaderTail (s : List Char) : List Char :=
  let s1 := match s with
    | ':' :: t => t
    | _ => s
  s1.dropWhile isPyWs

/-- The lazy group and terminator of the `DOTALL` family: shortest capture
whose end is followed by `\n\n`, `\n[A-Za-z]` (`[A-Z]` under `IGNORECASE`),
or an end-of-string `$` position; returns the capture and the rest of the
input after the consumed terminator. -/
def secCapture : List Char → List Char × List Char
  | [] => ([], [])
  | ['\n'] => ([], ['\n'])
  | '\n' :: '\n' :: t => ([], t)
  | '\n' :: c :: t =>
    if c.isAlpha then ([], t)
    else
      let r := secCapture (c :: t)
      ('\n' :: r.1, r.2)
  | c :: t =>
    let r := secCapture t
    (c :: r.1, r.2)

/-- Scanning loop of `re.findall` for the `DOTALL` section-pattern family;
`fuel` bounds the number of scanning steps (the text length suffices, since
every step consumes at least one character or ends the scan). -/
def reFindallSecGo (alts : List (List Char)) : Nat → List Char → List (List Char)
  | 0, _ => []
  | _ + 1, [] => []
  | fuel + 1, s@(_ :: rest) =>
    match matchAlts alts s with
    | some afterHeader =>
      let body := dropHeaderTail afterHeader
      let r := secCapture body
      r.1 :: reFindallSecGo alts fuel r.2
    | none => reFindallSecGo alts fuel rest

/-- `re.findall(pat, text, re.IGNORECASE | re.DOTALL)` for a pattern of the
section family: `alts` are the lowercased expansions of the header literal. -/
def re_findall_sec (alts : List String) (text : String) : List String :=
  (reFindallSecGo (alts.map String.data) (text.length + 1) text.data).map String.mk

/-!
The education/motivation patterns of `profile_normalizer.py` share the shape

  `HEADER:?\s*(.*?)(?:\n\n|\n[A-Z]|$)`   compiled with `IGNORECASE|MULTILINE`

Without `DOTALL`, `.` cannot match `\n`; with `MULTILINE`, `$` also matches
just before every `\n`.  So the lazy group stops at the first `\n` or at the
end of the string, whichever comes first, and the terminator consumed is
`\n\n` (2 chars), `\n[A-Za-z]` (2 chars), or `$` (0 chars), tried in that
order at the stop position.
-/

/-- Lazy group and terminator of the `MULTILINE` family. -/
def lineCapture : List Char → List Char × List Char
  | [] => ([], [])
  | ['\n'] => ([], ['\n'])
  | '\n' :: '\n' :: t => ([], t)
  | '\n' :: c :: t => if c.isAlpha then ([], t) else ([], '\n' :: c :: t)
  | c :: t =>
    let r := lineCapture t
    (c :: r.1, r.2)

/-- Scanning loop of `re.findall` for the `MULTILINE` line-pattern family. -/
def reFindallLineGo (alts : List (List Char)) : Nat → List Char → List (List Char)
  | 0, _ => []
  | _ + 1, [] => []
  | fuel + 1, s@(_ :: rest) =>
    match matchAlts alts s with
    | some afterHeader =>
      let body := dropHeaderTail afterHeader
      let r := lineCapture body
      r.1 :: reFindallLineGo alts fuel r.2
    | none => reFindallLineGo alts fuel rest

/-- `re.findall(pat, text, re.IGNORECASE | re.MULTILINE)` for a pattern of the
line family: `alts` are the lowercased expansions of the header literal. -/
def re_findall_line (alts : List String) (text : String) : List String :=
  (reFindallLineGo (alts.map String.data) (text.length + 1) text.data).map String.mk

/-!
`profile_normalizer.py` splits career text with
`re.split(r'\n\s*\n|;;|##', text)`.  The first alternative is `\n`, then a
greedy whitespace run, then `\n`: with the run maximal, the engine backtracks
so that the separator ends at the *last* `\n` of the whitespace run following
the first `\n` (it fails when that run contains no `\n`).
-/

/-- Number of characters of `t` consumed by `\s*\n` (after an initial `\n`):
up to and including the last `\n` of the maximal whitespace run, or `none`
when the run contains no `\n`. -/
def wsRunUpToLastNl (t : List Char) : Option Nat :=
  let run := t.takeWhile isPyWs
  if run.contains '\n' then
    some (run.length - (run.reverse.takeWhile (fun c => c != '\n')).length)
  else
    none

/-- Scanning loop of `re.split(r'\n\s*\n|;;|##', ·)`; `acc` is the piece
currently being accumulated (reversed). -/
def reSplitGo : Nat → List Char → List Char → List (List Char)
  | 0, acc, _ => [acc.reverse]
  | _ + 1, acc, [] => [acc.reverse]
  | fuel + 1, acc, '\n' :: t =>
    (match wsRunUpToLastNl t with
     | some k => acc.reverse :: reSplitGo fuel [] (t.drop k)
     | none => reSplitGo fuel ('\n' :: acc) t)
  | fuel + 1, acc, ';' :: ';' :: t => acc.reverse :: reSplitGo fuel [] t
  | fuel + 1, acc, '#' :: '#' :: t => acc.reverse :: reSplitGo fuel [] t
  | fuel + 1, acc, c :: t => reSplitGo fuel (c :: acc) t

/-- `re.split(r'\n\s*\n|;;|##', text)` from
`ProfileNormalizer._distribute_text_to_variants`. -/
def re_split_sections (text : String) : List String :=
  (reSplitGo (text.length + 1) [] text.data).map String.mk

/-!
`JobDescriptionLoader._parse_list_items` strips anchored prefixes with
`re.sub(r"^[-\*\•]\s*", "", line)` and `re.sub(r"^\d+\.?\s*", "", line)`:
each removes at most one occurrence, at the start of the string.
-/

/-- `re.sub(r"^[-\*\•]\s*", "", line)`: drop one leading bullet character and
the whitespace after it. -/
def stripBullet (s : String) : String :=
  match s.data with
  | c :: rest =>
    if c == '-' || c == '*' || c == '•' then String.mk (rest.dropWhile isPyWs) else s
  | [] => s

/-- `re.sub(r"^\d+\.?\s*", "", line)`: drop leading digits, an optional dot,
and the whitespace after them. -/
def stripNumbering (s : String) : String :=
  match s.data with
  | c :: _ =>
    if c.isDigit then
      let r := s.data.dropWhile Char.isDigit
      let r := match r with
        | '.' :: t => t
        | _ => r
      String.mk (r.dropWhile isPyWs)
    else s
  | [] => s

/-- `error_handler.ErrorCategory`. -/
inductive ErrorCategory where
  | network
  | validation
  | llm
  | parsing
  | authentication
  | rate_limit
  | timeout
  | unknown
deriving DecidableEq

/-- A Python exception: a `JobAgentError` with its category and message
(`error_handler.JobAgentError`), or any other exception (`generic`) such as
the `ValueError`s of `urlparse` — declared before the loader, which
propagates the latter. -/
inductive PyExc where
  | jobAgent (category : ErrorCategory) (message : String)
  | generic (message : String)
deriving DecidableEq

/-!
### `backend/loaders/job_description_loader.py`

BeautifulSoup parsing is a third-party collaborator; what `_parse_html_content`
consumes from it is (a) the stripped text of the first element matched by each
of the five title selectors and (b) the plain-text stream
`soup.get_text(separator="\n", strip=True)`.  A `Soup` value records exactly
those observables (the same `<title>` element backs both the `"title"`
selector and `soup.find("title")`), so quantifying over all `Soup`s and text
streams covers all HTML inputs.
-/

/-- Observables of a BeautifulSoup document after `<script>`/`<style>`
removal: per-selector element texts (`none` when no element matched) and the
newline-separated text stream. -/
structure Soup where
  h1 : Option String
  job_title_class : Option String
  position_title_class : Option String
  job_title_testid : Option String
  title_tag : Option String
  text_content : String

/-- `schemas.models.JobDescription`. -/
structure JobDescription where
  url : String
  title : Option String
  responsibilities : List String
  requirements : List String
  role_summary : String
  company_context : String

/-- A platform entry of `JobDescriptionLoader.SUPPORTED_PLATFORMS`. -/
structure PlatformEntry where
  key : String
  domains : List String
  requires_login : Bool
  recommendation : String

/-- `JobDescriptionLoader.SUPPORTED_PLATFORMS`, in dict insertion order. -/
def SUPPORTED_PLATFORMS : List PlatformEntry :=
  [ { key := "indeed", domains := ["indeed.com"], requires_login := false,
      recommendation := "Excellent - works reliably" },
    { key := "glassdoor", domains := ["glassdoor.com"], requires_login := false,
      recommendation := "Good - usually works well" },
    { key := "linkedin", domains := ["linkedin.com"], requires_login := true,
      recommendation := "Requires login - try copying job description instead" },
    { key := "monster", domains := ["monster.com"], requires_login := false,
      recommendation := "Good - generally works well" },
    { key := "dice", domains := ["dice.com"], requires_login := false,
      recommendation := "Good - usually works" },
    { key := "ziprecruiter", domains := ["ziprecruiter.com"], requires_login := false,
      recommendation := "Good - works well" },
    { key := "company_careers", domains := [], requires_login := false,
      recommendation := "Excellent - direct from company sites" } ]

/-- The `company_careers` URL patterns checked by the loader. -/
def careerPatterns : List String := ["careers", "jobs", "join", "work-at"]

/-- Python `s.partition(sep)[2]`: everything after the first occurrence of
the separator (empty when absent). -/
def partitionAfter (s sep : String) : String :=
  match pySplitOn s sep with
  | [] => ""
  | [_] => ""
  | _ :: rest => pyJoin sep rest

/-- Python `s.partition(sep)[0]`: everything before the first occurrence of
the separator (the whole string when absent). -/
def partitionBefore (s sep : String) : String :=
  (pySplitOn s sep).headD ""

/-- The scheme/netloc projection of `urllib.parse.urlparse` on a URL it
accepts: `scheme` is the lowercased prefix before `:` when it is a valid
scheme name, `netloc` is present only when the rest starts with `//`, up to
the next `/`, `?` or `#`.  `urlparseE` below adds urlparse's error path (it
raises `ValueError` on invalid bracketed netlocs). -/
def urlparse_scheme_netloc (url : String) : String × String :=
  let candidates := pySplitOn url ":"
  match candidates with
  | pre :: _ :: _ =>
    let validScheme :=
      match pre.data with
      | [] => false
      | c :: cs => c.isAlpha && cs.all (fun d => d.isAlpha || d.isDigit || d == '+' || d == '.' || d == '-')
    if validScheme then
      let rest := pyDrop url (pre.length + 1)
      if pyStartswith rest "//" then
        (pyLower pre, String.mk ((rest.data.drop 2).takeWhile (fun c => c != '/' && c != '?' && c != '#')))
      else (pyLower pre, "")
    else
      if pyStartswith url "//" then
        ("", String.mk ((url.data.drop 2).takeWhile (fun c => c != '/' && c != '?' && c != '#')))
      else ("", "")
  | _ =>
    if pyStartswith url "//" then
      ("", String.mk ((url.data.drop 2).takeWhile (fun c => c != '/' && c != '?' && c != '#')))
    else ("", "")

/-!
`urllib.parse.urlparse` (CPython 3.11, `urlsplit`) raises `ValueError` when
the netloc contains an unbalanced `[`/`]` (`Invalid IPv6 URL`) and, for a
balanced pair, when `_check_bracketed_host` rejects the bracketed host: the
host must match the IPvFuture pattern `v[hex]+\..+` when it starts with
`v`, and otherwise must be a valid IPv6 address per the `ipaddress` module
(a bracketed IPv4 address is also rejected).  The validators below mirror
`ipaddress.IPv4Address._parse_octet`, `IPv6Address._ip_int_from_string` and
`IPv6Address._split_scope_id` clause by clause.  The model is exact for
URLs without control characters, `\t`/`\r`/`\n`, leading
whitespace, or non-ASCII characters (`sanitizedUrl` below) — on those,
`urlsplit`'s WHATWG sanitization and the non-ASCII `_checknetloc` test are
identities.
-/

/-- A hexadecimal digit (the `ipaddress` hextet alphabet). -/
def isHexDigitC (c : Char) : Bool :=
  c.isDigit || ('a' ≤ c && c ≤ 'f') || ('A' ≤ c && c ≤ 'F')

/-- Decimal value of a digit string. -/
def decDigitsToNat (cs : List Char) : Nat :=
  cs.foldl (fun n c => n * 10 + (c.toNat - 48)) 0

/-- `ipaddress.IPv4Address._parse_octet`: 1-3 ASCII decimal digits, no
leading zero (except `0` itself), value at most 255. -/
def validOctet (s : String) : Bool :=
  s != "" && s.data.all Char.isDigit && s.data.length ≤ 3 &&
    (s.data.length == 1 || s.data.headD '0' != '0') &&
    decDigitsToNat s.data ≤ 255

/-- A valid dotted-quad IPv4 address string (`ipaddress.IPv4Address`). -/
def validIPv4 (s : String) : Bool :=
  match pySplitOn s "." with
  | [a, b, c, d] => validOctet a && validOctet b && validOctet c && validOctet d
  | _ => false

/-- `ipaddress.IPv6Address._parse_hextet`: 1-4 hexadecimal digits. -/
def validHextet (s : String) : Bool :=
  s != "" && s.data.all isHexDigitC && s.data.length ≤ 4

/-- `ipaddress.IPv6Address._ip_int_from_string`, validity only: at least 3
colon-separated parts, an optional trailing embedded IPv4 quad (counting as
two hextets), at most one `::` compression — required when fewer than 8
hextets are given, with a lone leading/trailing `:` forbidden — and every
populated part a valid hextet. -/
def validIPv6NoScope (s : String) : Bool :=
  if s == "" then false
  else
    let parts := pySplitOn s ":"
    if parts.length < 3 then false
    else
      let lastPart := parts.getLastD ""
      let hasV4 := pyIn "." lastPart
      if hasV4 && !validIPv4 lastPart then false
      else
        -- the embedded IPv4 becomes two synthetic hextets (`0` stands for
        -- the always-valid rendering `%x` of a 16-bit value)
        let parts := if hasV4 then parts.dropLast ++ ["0", "0"] else parts
        if 9 < parts.length then false
        else
          let interior := (parts.drop 1).dropLast
          let skips := interior.countP (fun p => p == "")
          if 1 < skips then false
          else if skips == 1 then
            let skip_index := 1 + interior.findIdx (fun p => p == "")
            let headEmpty := parts.headD "" == ""
            let lastEmpty := parts.getLastD "" == ""
            if headEmpty && skip_index != 1 then false
            else if lastEmpty && parts.length - skip_index - 1 != 1 then false
            else
              let parts_hi := if headEmpty then skip_index - 1 else skip_index
              let parts_lo := (parts.length - skip_index - 1) - (if lastEmpty then 1 else 0)
              if 8 < parts_hi + parts_lo + 1 then false
              else
                (parts.take parts_hi).all validHextet &&
                  (parts.drop (parts.length - parts_lo)).all validHextet
          else
            parts.length == 8 && parts.headD "" != "" && parts.getLastD "" != "" &&
              parts.all validHextet

/-- `ipaddress.IPv6Address` with `_split_scope_id`: an optional single
`%scope` suffix with a non-empty scope id. -/
def validIPv6Host (s : String) : Bool :=
  match pySplitOn s "%" with
  | [addr] => validIPv6NoScope addr
  | [addr, scope] => scope != "" && validIPv6NoScope addr
  | _ => false

/-- The IPvFuture pattern of `_check_bracketed_host`:
`re.match(r"\Av[a-fA-F0-9]+\..+\Z", hostname)` — `v`, hex digits, a dot,
then at least one more character (`.` does not match a newline). -/
def validIPvFuture (s : String) : Bool :=
  match s.data with
  | 'v' :: rest =>
    let hexRun := rest.takeWhile isHexDigitC
    if hexRun.isEmpty then false
    else
      match rest.drop hexRun.length with
      | '.' :: tail => !tail.isEmpty && tail.all (fun c => c != '\n')
      | _ => false
  | _ => false

/-- `urllib.parse._check_bracketed_host`: IPvFuture pattern for `v…` hosts;
otherwise `ipaddress.ip_address` must yield an IPv6 address (a bracketed
IPv4 address raises, and so does anything that is neither). -/
def checkBracketedHost (hostname : String) : Except PyExc Unit :=
  if pyStartswith hostname "v" then
    if validIPvFuture hostname then .ok ()
    else .error (.generic "ValueError: IPvFuture address is invalid")
  else if validIPv4 hostname then
    .error (.generic "ValueError: An IPv4 address cannot be in brackets")
  else if validIPv6Host hostname then .ok ()
  else .error (.generic "ValueError: does not appear to be an IPv4 or IPv6 address")

/-- `urllib.parse.urlparse` including its error path: the scheme/netloc
projection, after `urlsplit`'s netloc bracket checks — an unbalanced
`[`/`]` raises `Invalid IPv6 URL`, a balanced pair must pass
`_check_bracketed_host` on `netloc.partition('[')[2].partition(']')[0]`.
(When no `//` netloc is parsed the netloc is empty and the checks are
vacuous, as in the source.) -/
def urlparseE (url : String) : Except PyExc (String × String) :=
  let parsed := urlparse_scheme_netloc url
  let netloc := parsed.2
  if (pyIn "[" netloc && !pyIn "]" netloc) || (pyIn "]" netloc && !pyIn "[" netloc) then
    .error (.generic "ValueError: Invalid IPv6 URL")
  else if pyIn "[" netloc && pyIn "]" netloc then
    match checkBracketedHost (partitionBefore (partitionAfter netloc "[") "]") with
    | .ok _ => .ok parsed
    | .error e => .error e
  else .ok parsed

/-- The URLs on which the urlparse model is exact: ASCII only, no
`\t`/`\r`/`\n` anywhere (urlsplit deletes those), and no leading C0
control or space (urlsplit strips those from the left). -/
def sanitizedUrl (url : String) : Bool :=
  url.data.all (fun c => c != '\t' && c != '\r' && c != '\n' && c.toNat < 128) &&
    (match url.data.head? with
     | some c => 0x20 < c.toNat
     | none => true)

/-- `JobDescriptionLoader._is_valid_url`: inside a `try/except` returning
`False` on any exception (in particular urlparse's `ValueError`), scheme
and netloc must be non-empty, then the four social-media domains are
rejected by substring search over the entire lowercased URL. -/
def is_valid_url (url : String) : Bool :=
  match urlparseE url with
  | .error _ => false
  | .ok parsed =>
    if !(parsed.1 != "" && parsed.2 != "") then false
    else
      let url_lower := pyLower url
      if ["facebook.com", "twitter.com", "instagram.com", "youtube.com"].any
          (fun domain => pyIn domain url_lower) then false
      else true

/-- `JobDescriptionLoader._detect_provider`. -/
def detect_provider (url : String) : Option String :=
  let url_lower := pyLower url
  let domain := pyLower (urlparse_scheme_netloc url).2
  let rec loop : List PlatformEntry → Option String
    | [] =>
      if pyIn "linkedin" domain then some "LinkedIn"
      else if pyIn "indeed" domain then some "Indeed"
      else if pyIn "glassdoor" domain then some "Glassdoor"
      else some "Unknown Platform"
    | entry :: rest =>
      if entry.key == "company_careers" then
        if careerPatterns.any (fun pat => pyIn pat url_lower) then some "Company Career Page"
        else loop rest
      else if entry.domains.any (fun d => pyIn d domain) then some (pyTitle entry.key)
      else loop rest
  loop SUPPORTED_PLATFORMS

/-- `platform_info` dict of `JobDescriptionLoader._get_platform_info`. -/
structure PlatformInfo where
  provider : String
  requires_login : Bool
  recommendation : String
  tips : List String

/-- `JobDescriptionLoader._get_platform_info`. -/
def get_platform_info (url : String) : PlatformInfo :=
  let provider := detect_provider url
  let url_lower := pyLower url
  let info : PlatformInfo :=
    { provider := provider.getD "Unknown",
      requires_login := false,
      recommendation := "May work - try it and see",
      tips := [] }
  let rec loop (info : PlatformInfo) : List PlatformEntry → PlatformInfo
    | [] => info
    | entry :: rest =>
      if entry.key == "company_careers" then
        if careerPatterns.any (fun pat => pyIn pat url_lower) then
          { provider := "Company Career Page",
            requires_login := entry.requires_login,
            recommendation := entry.recommendation,
            tips := ["Direct company sites usually work best",
                     "Excellent choice - these work reliably"] }
        else loop info rest
      else if entry.domains.any (fun d => pyIn d url_lower) then
        let updated : PlatformInfo :=
          { provider := pyTitle entry.key,
            requires_login := entry.requires_login,
            recommendation := entry.recommendation,
            tips := info.tips }
        if entry.key == "linkedin" then
          { updated with tips :=
              ["LinkedIn requires account login for most job details",
               "Try copying the job description text instead",
               "Use the \"Share\" link if available"] }
        else if entry.key == "indeed" then
          { updated with tips :=
              ["Indeed works reliably with direct job URLs",
               "Make sure the URL includes the job ID"] }
        else updated
      else loop info rest
  loop info SUPPORTED_PLATFORMS

/-- Return dict of `JobDescriptionLoader.validate_and_analyze_url`; absent
keys are `none`. -/
structure UrlAnalysis where
  valid : Bool
  error : Option String
  platform_info : Option PlatformInfo
  warnings : Option (List String)

/-- `JobDescriptionLoader.validate_and_analyze_url`. -/
def validate_and_analyze_url (url : String) : UrlAnalysis :=
  if !is_valid_url url then
    { valid := false,
      error := some "Invalid URL format. Please provide a complete URL starting with http:// or https://",
      platform_info := none,
      warnings := none }
  else
    let platform_info := get_platform_info url
    { valid := true,
      error := none,
      platform_info := some platform_info,
      warnings := some (if !platform_info.requires_login then []
        else ["This appears to be a " ++ platform_info.provider ++ " URL, which may require login."]) }

/-- The selector loop of `_extract_title`: the first selector text that is
non-empty and longer than 5 characters (a present element whose text fails
the test is skipped, like the loop's fall-through). -/
def selectorTitle (soup : Soup) : Option String :=
  ([soup.h1, soup.job_title_class, soup.position_title_class,
    soup.job_title_testid, soup.title_tag].filterMap id).find?
    (fun t => t != "" && 5 < t.length)

/-- The page-`<title>` split heuristic of `_extract_title`: first `|`
segment, else last `-` segment, else the text itself. -/
def splitCandidate (title_text : String) : String :=
  if pyIn "|" title_text then pyStrip ((pySplitOn title_text "|").headD "")
  else if pyIn "-" title_text then pyStrip ((pySplitOn title_text "-").getLastD "")
  else title_text

/-- `JobDescriptionLoader._extract_title`: the five selectors in priority
order, each accepted when its stripped text is non-empty and longer than 5
characters; then the page-`<title>` split fallback, accepted when longer
than 5 characters. -/
def extract_title (soup : Soup) (url : String) : Option String :=
  match selectorTitle soup with
  | some title => some title
  | none =>
    match soup.title_tag with
    | some title_text =>
      if 5 < (splitCandidate title_text).length then some (splitCandidate title_text)
      else none
    | none => none

/-- The per-line cleaning of `_parse_list_items`: whitespace strip, then one
bullet prefix, then one numbering prefix. -/
def cleanLine (line : String) : String :=
  stripNumbering (stripBullet (pyStrip line))

/-- The per-line keep test of `_parse_list_items`: only substantial items —
cleaned lines longer than 10 characters not starting with `http`/`www.`. -/
def keepItem (line : String) : Option String :=
  if 10 < (cleanLine line).length
      && !(pyStartswith (cleanLine line) "http" || pyStartswith (cleanLine line) "www.") then
    some (cleanLine line)
  else none

/-- `JobDescriptionLoader._parse_list_items`: split on newlines, clean each
line, keep the substantial ones. -/
def parse_list_items (text : String) : List String :=
  (pySplitOn text "\n").filterMap keepItem

/-- Lowercased alternative expansions of the responsibility-section header
regexes, in the order `re` tries them. -/
def respPatterns : List (List String) :=
  [ ["responsibilities", "responsibilitie"],
    ["what you" ++ String.mk [apos] ++ "ll do", "what youll do"],
    ["role responsibilities"],
    ["key responsibilities"] ]

/-- Lowercased alternative expansions of the requirement-section header
regexes. -/
def reqPatterns : List (List String) :=
  [ ["requirements", "requirement"],
    ["what you need"],
    ["qualifications"],
    ["skills required"],
    ["you have"] ]

/-- Lowercased alternative expansions of the summary-section header regexes. -/
def summaryPatterns : List (List String) :=
  [ ["about the role"], ["job summary"], ["position summary"], ["overview"] ]

/-- Lowercased alternative expansions of the company-section header regexes. -/
def companyPatterns : List (List String) :=
  [ ["about us"], ["about the company"], ["who we are"], ["company description"] ]

/-- `JobDescriptionLoader._extract_responsibilities`: pool the parsed items of
every match of every pattern, drop empties, deduplicate (`list(set(...))`),
truncate to 10. -/
def extract_responsibilities (text : String) : List String :=
  let responsibilities := respPatterns.flatMap (fun pat =>
    (re_findall_sec pat text).flatMap parse_list_items)
  (((responsibilities.filter (fun item => item != "")).dedup).take 10)

/-- `JobDescriptionLoader._extract_requirements`. -/
def extract_requirements (text : String) : List String :=
  let requirements := reqPatterns.flatMap (fun pat =>
    (re_findall_sec pat text).flatMap parse_list_items)
  (((requirements.filter (fun item => item != "")).dedup).take 10)

/-- The pooled stripped section matches of `_extract_role_summary`,
filtered to the first longer than 50 characters. -/
def summaryMatch (text : String) : Option String :=
  ((summaryPatterns.flatMap (fun pat => re_findall_sec pat text)).map pyStrip).find?
    (fun summary => decide (50 < summary.length))

/-- The `summary_parts` loop of `_extract_role_summary`: the first three
stripped lines that are non-empty and longer than 20 characters. -/
def summaryFallbackParts (text : String) : List String :=
  (((pySplitOn text "\n").map pyStrip).filter
    (fun line => line != "" && 20 < line.length)).take 3

/-- `JobDescriptionLoader._extract_role_summary` continued: first matched
section, else title plus first substantial lines, else the fixed synthetic
sentence. -/
def extract_role_summary (text : String) (title : Option String) : String :=
  match summaryMatch text with
  | some summary => summary
  | none =>
    match (if pyTruthy title then
        (if summaryFallbackParts text != [] then
          some ((title.getD "") ++ ". " ++ pyJoin " " (summaryFallbackParts text))
        else none)
      else none) with
    | some s => s
    | none =>
      "This is a " ++ (if pyTruthy title then title.getD "" else "job") ++
        " position requiring specific skills and experience."

/-- Domain-to-company hints of `_extract_company_context`. -/
def domain_hints : List (String × String) :=
  [ ("linkedin.com", "LinkedIn"), ("indeed.com", "Indeed"),
    ("glassdoor.com", "Glassdoor"), ("monster.com", "Monster"),
    ("dice.com", "Dice"), ("ziprecruiter.com", "ZipRecruiter") ]

/-- The pooled stripped section matches of `_extract_company_context`,
filtered to the first longer than 30 characters. -/
def companyMatch (text : String) : Option String :=
  ((companyPatterns.flatMap (fun pat => re_findall_sec pat text)).map pyStrip).find?
    (fun context => decide (30 < context.length))

/-- The URL-domain preprocessing of `_extract_company_context`: lowercased
netloc with a `www.` prefix removed. -/
def companyDomain (netloc : String) : String :=
  let domain := pyLower netloc
  if pyStartswith domain "www." then pyDrop domain 4 else domain

/-- `JobDescriptionLoader._extract_company_context`: first matched section;
otherwise `urlparse(url)` — which can raise, propagated here as `.error` —
and a sentence derived from its netloc domain. -/
def extract_company_context (text : String) (url : String) : Except PyExc String :=
  match companyMatch text with
  | some context => .ok context
  | none =>
    match urlparseE url with
    | .error e => .error e
    | .ok parsed =>
      match domain_hints.lookup (companyDomain parsed.2) with
      | some name => .ok ("This position is posted on " ++ name ++ ", a leading job platform.")
      | none =>
        .ok ("This is a position at " ++
          pyTitle ((pySplitOn (companyDomain parsed.2) ".").headD "") ++ ".")

/-- `JobDescriptionLoader._parse_html_content` (the per-call core of
`extract`): build the structured job record from the parsed document and the
source URL.  The company-context step is the only one that can raise (via
`urlparse`), so the record is built exactly when it succeeds. -/
def parse_html_content (soup : Soup) (url : String) : Except PyExc JobDescription :=
  let title := extract_title soup url
  let text_content := soup.text_content
  match extract_company_context text_content url with
  | .error e => .error e
  | .ok context =>
    .ok { url := url,
          title := title,
          responsibilities := extract_responsibilities text_content,
          requirements := extract_requirements text_content,
          role_summary := extract_role_summary text_content title,
          company_context := context }

/-!
### `backend/utils/profile_normalizer.py`

Raw profiles are arbitrary JSON objects; `Value` models the JSON universe the
normalizer inspects (strings, arrays, objects, `None`).  Python `str()` /
`repr()` on these values is modelled up to string-escape details (the
embedding never needs to re-parse the rendering).
-/

mutual
/-- A JSON-ish Python value as handled by `ProfileNormalizer`.  Lists and
dicts are their own inductive types (rather than `List`-nested) so that
every traversal below is plain structural recursion. -/
inductive Value where
  | s (text : String)
  | vlist (items : ValueList)
  | vdict (entries : ValueDict)
  | null

/-- A Python list of values. -/
inductive ValueList where
  | nil
  | cons (head : Value) (tail : ValueList)

/-- A Python dict with string keys, in insertion order. -/
inductive ValueDict where
  | nil
  | cons (key : String) (value : Value) (tail : ValueDict)
end

/-- A raw profile (and any parsed chain-output dict) is a Python dict. -/
abbrev PyDict := ValueDict

/-- The elements of a `ValueList`, as a Lean list. -/
def vlToList : ValueList → List Value
  | .nil => []
  | .cons head tail => head :: vlToList tail

/-- Build a `ValueList` from a Lean list. -/
def vlOfList : List Value → ValueList
  | [] => .nil
  | head :: tail => .cons head (vlOfList tail)

/-- `dict.keys()`, in insertion order. -/
def vdKeys : ValueDict → List String
  | .nil => []
  | .cons key _ tail => key :: vdKeys tail

/-- `dict.values()`, in insertion order. -/
def vdValues : ValueDict → List Value
  | .nil => []
  | .cons _ value tail => value :: vdValues tail

/-- `key in dict` / `dict[key]`: first entry with the given key. -/
def vdLookup (d : ValueDict) (key : String) : Option Value :=
  match d with
  | .nil => none
  | .cons k v tail => if k == key then some v else vdLookup tail key

/-- Is the dict empty? -/
def vdIsEmpty : ValueDict → Bool
  | .nil => true
  | .cons _ _ _ => false

/-- Is the list empty? -/
def vlIsEmpty : ValueList → Bool
  | .nil => true
  | .cons _ _ => false

mutual
/-- Python `repr` of a `Value` (string escapes not reproduced). -/
def pyRepr : Value → String
  | .s text => String.mk [apos] ++ text ++ String.mk [apos]
  | .null => "None"
  | .vlist items => "[" ++ pyJoin ", " (pyReprList items) ++ "]"
  | .vdict entries => "\x7b" ++ pyJoin ", " (pyReprEntries entries) ++ "\x7d"

/-- `repr` of the elements of a list. -/
def pyReprList : ValueList → List String
  | .nil => []
  | .cons v rest => pyRepr v :: pyReprList rest

/-- `repr` of the entries of a dict. -/
def pyReprEntries : ValueDict → List String
  | .nil => []
  | .cons key v rest =>
    (String.mk [apos] ++ key ++ String.mk [apos] ++ ": " ++ pyRepr v) :: pyReprEntries rest
end

/-- Python `str` of a `Value`: the text itself for strings, `None` for
`None`, `repr` rendering for containers. -/
def pyStr : Value → String
  | .s text => text
  | .null => "None"
  | v => pyRepr v

/-- Python truthiness of a `Value`: empty containers, `""` and `None` are
falsy. -/
def pyTruthyV : Value → Bool
  | .s text => text != ""
  | .vlist items => !vlIsEmpty items
  | .vdict entries => !vdIsEmpty entries
  | .null => false

/-- `ProfileNormalizer.CAREER_KEYWORDS`, in dict insertion order. -/
def CAREER_KEYWORDS : List (String × List String) :=
  [ ("data_science",
     ["data scientist", "data science", "machine learning", "ml engineer",
      "ai engineer", "artificial intelligence", "data analyst", "analytics"]),
    ("data_engineering",
     ["data engineer", "data engineering", "etl", "data pipeline",
      "big data", "hadoop", "spark", "kafka", "data warehouse"]),
    ("computer_vision",
     ["computer vision", "cv engineer", "image processing", "opencv",
      "tensorflow", "pytorch", "deep learning", "neural networks", "cnn"]),
    ("cto",
     ["cto", "chief technology officer", "technical leader", "tech lead",
      "engineering manager", "vp engineering", "head of engineering",
      "director of engineering", "technical director"]) ]

/-- The local `career_variants` dict of `_extract_career_background`:
category name to optional assigned text, in insertion order. -/
abbrev Variants := List (String × Option String)

/-- Initial `career_variants`: every category `None`. -/
def initVariants : Variants :=
  [("data_science", none), ("data_engineering", none), ("computer_vision", none),
   ("cto", none)]

/-- `variants[key] = value` preserving dict order. -/
def setVariant (variants : Variants) (key : String) (value : String) : Variants :=
  variants.map (fun kv => if kv.1 == key then (kv.1, some value) else kv)

/-- Lookup of a category's assigned text. -/
def lookup_variant (variants : Variants) (key : String) : Option String :=
  (variants.lookup key).join

/-- Python `any(variants.values())`: some value is truthy (`None` and `""`
are falsy). -/
def anyTruthy (variants : Variants) : Bool :=
  variants.any (fun kv => pyTruthy kv.2)

/-- The `empty_variants` comprehension: categories whose value `is None`. -/
def emptyVariants (variants : Variants) : List String :=
  (variants.filter (fun kv => kv.2.isNone)).map Prod.fst

/-- `ProfileNormalizer._find_career_data`: first conventional career key
present in the profile, else the first dict value whose rendering contains
`career`. -/
def find_career_data (profile_data : PyDict) : Option Value :=
  let career_keys := ["career", "career_background", "background", "experience",
    "work_experience", "professional_experience", "roles", "positions"]
  match career_keys.findSome? (fun key => vdLookup profile_data key) with
  | some v => some v
  | none =>
    (vdValues profile_data).findSome? (fun value =>
      match value with
      | .vdict entries =>
        if pyIn "career" (pyLower (pyStr (.vdict entries))) then some (Value.vdict entries)
        else none
      | _ => none)

/-- The structured (dict) branch of `_extract_career_background`: for every
category in order, assign the first key of `career_data` containing one of
its keywords, else the value of a key equal to the category name. -/
def distributeDict (career_data : ValueDict) (variants : Variants) : Variants :=
  CAREER_KEYWORDS.foldl (fun variants vk =>
    let matching_keys := (vdKeys career_data).filter (fun key =>
      vk.2.any (fun keyword => pyIn keyword (pyLower key)))
    match matching_keys with
    | firstKey :: _ =>
      match vdLookup career_data firstKey with
      | some v => setVariant variants vk.1 (pyStr v)
      | none => variants
    | [] =>
      match vdLookup career_data vk.1 with
      | some v => setVariant variants vk.1 (pyStr v)
      | none => variants) variants

/-- Keyword classification of one list item: the first category (in table
order) with a keyword occurring in the lowercased item. -/
def classifyItem (item_lower : String) : Option String :=
  (CAREER_KEYWORDS.find? (fun vk =>
    vk.2.any (fun keyword => pyIn keyword item_lower))).map Prod.fst

/-- The first loop of `_distribute_list_to_variants`: group the items by
their classified category (`variant_items`) and collect the `unassigned`
ones, preserving item order. -/
def groupItems (items_text : List String) : List (String × List String) × List String :=
  items_text.foldl (fun acc item =>
    match classifyItem (pyLower item) with
    | some variant => (acc.1.map (fun g => if g.1 == variant then (g.1, g.2 ++ [item]) else g), acc.2)
    | none => (acc.1, acc.2 ++ [item]))
    (CAREER_KEYWORDS.map (fun vk => (vk.1, ([] : List String))), ([] : List String))

/-- The second loop of `_distribute_list_to_variants`: write each non-empty
group, joined by newlines, into its category. -/
def assignGroups (variant_items : List (String × List String)) (variants : Variants) : Variants :=
  variant_items.foldl (fun variants g =>
    if !g.2.isEmpty then setVariant variants g.1 (pyJoin "\n" g.2)
    else variants) variants

/-- `ProfileNormalizer._distribute_list_to_variants`. -/
def distribute_list_to_variants (items : List Value) (variants : Variants) : Variants :=
  let grouping := groupItems (items.map pyStr)
  let variants := assignGroups grouping.1 variants
  match emptyVariants variants with
  | firstEmpty :: _ =>
    if !grouping.2.isEmpty then
      setVariant variants firstEmpty (pyJoin "\n" grouping.2)
    else variants
  | [] => variants

/-- `ProfileNormalizer._distribute_text_to_variants`: split into sections,
assign each section to the first category with a keyword hit; a section with
no hit goes to the first still-`None` category when nothing is assigned
yet. -/
def distribute_text_to_variants (text : String) (variants : Variants) : Variants :=
  (re_split_sections text).foldl (fun variants sec =>
    match classifyItem (pyLower sec) with
    | some variant => setVariant variants variant (pyStrip sec)
    | none =>
      if !anyTruthy variants then
        match emptyVariants variants with
        | firstEmpty :: _ => setVariant variants firstEmpty (pyStrip sec)
        | [] => variants
      else variants) variants

mutual
/-- The inner `flatten` of `_flatten_profile_to_text`, dict case. -/
def flattenEntries : ValueDict → String → List String
  | .nil, _ => []
  | .cons key (Value.vdict entries) rest, prefixText =>
    flattenEntries entries (prefixText ++ key ++ ": ") ++ flattenEntries rest prefixText
  | .cons key (Value.vlist items) rest, prefixText =>
    flattenItems items 0 (prefixText ++ key ++ ": ") ++ flattenEntries rest prefixText
  | .cons key v rest, prefixText =>
    [prefixText ++ key ++ ": " ++ pyStr v] ++ flattenEntries rest prefixText

/-- The inner `flatten` of `_flatten_profile_to_text`, list case (`i` is the
0-based index of the first remaining item). -/
def flattenItems : ValueList → Nat → String → List String
  | .nil, _, _ => []
  | .cons (Value.vdict entries) rest, i, prefixText =>
    flattenEntries entries (prefixText ++ "Item " ++ toString (i + 1) ++ ": ") ++
      flattenItems rest (i + 1) prefixText
  | .cons (Value.vlist items) rest, i, prefixText =>
    flattenItems items 0 (prefixText ++ "Item " ++ toString (i + 1) ++ ": ") ++
      flattenItems rest (i + 1) prefixText
  | .cons v rest, i, prefixText =>
    [prefixText ++ "Item " ++ toString (i + 1) ++ ": " ++ pyStr v] ++
      flattenItems rest (i + 1) prefixText
end

/-- `ProfileNormalizer._flatten_profile_to_text`. -/
def flatten_profile_to_text (profile_data : PyDict) : String :=
  pyJoin "\n" (flattenEntries profile_data "")

/-- `ProfileNormalizer._search_entire_profile`. -/
def search_entire_profile (profile_data : PyDict) (variants : Variants) : Variants :=
  distribute_text_to_variants (flatten_profile_to_text profile_data) variants

/-- The `if career_data:` dispatch of `_extract_career_background`: a truthy
dict goes through the structured branch, a truthy list or string through the
corresponding distribution; a falsy or absent value leaves the variants
untouched. -/
def applyCareerData (career_data : Option Value) (variants : Variants) : Variants :=
  match career_data with
  | some cd =>
    if pyTruthyV cd then
      match cd with
      | .vdict entries => distributeDict entries variants
      | .vlist items => distribute_list_to_variants (vlToList items) variants
      | .s text => distribute_text_to_variants text variants
      | .null => variants
    else variants
  | none => variants

/-- The local `career_variants` value at the end of
`_extract_career_background`, before the `CareerBackground(**career_variants)`
construction. -/
def career_variants (profile_data : PyDict) : Variants :=
  let variants := applyCareerData (find_career_data profile_data) initVariants
  if !anyTruthy variants then search_entire_profile profile_data variants
  else variants

/-- `schemas.models.CareerStory`. -/
structure CareerStory where
  initiator : Option String
  achievement_sample : Option String
  education_profile : Option String
  motivation_goals : Option String

/-- `schemas.models.CareerBackground`: a single declared field
`careers : Dict[str, CareerStory]` with default `\x7b\x7d`. -/
structure CareerBackground where
  careers : List (String × CareerStory)

/-- `schemas.models.UserProfile` (the canonical profile). -/
structure UserProfile where
  career_background : CareerBackground
  education_background : String
  motivation : String

/-- The pydantic v2 construction `CareerBackground(**career_variants)` at
`profile_normalizer.py:102` against `models.py:18-21`.  `CareerBackground`
declares the single field `careers` (default `\x7b\x7d`) and pydantic v2's
default `extra='ignore'` configuration silently discards keyword arguments
that do not name a declared field.  The keyword arguments passed here are
exactly the four legacy slot names `data_science`, `data_engineering`,
`computer_vision`, `cto` (see `career_variants_keys` below), so every
slot is discarded and the result is always the default empty mapping. -/
def CareerBackgroundInit (_career_variants : Variants) : CareerBackground :=
  { careers := [] }

/-- `ProfileNormalizer._extract_career_background`: build the local
`career_variants` dict, then construct the pydantic `CareerBackground` from
it. -/
def extract_career_background (profile_data : PyDict) : CareerBackground :=
  CareerBackgroundInit (career_variants profile_data)

/-- The direct-key branch shared by `_extract_education_background` and
`_extract_motivation`: the value of the first present key, lists joined by
newlines, anything else through `str`. -/
def directKeyText (keys : List String) (profile_data : PyDict) : Option String :=
  (keys.findSome? (fun key => vdLookup profile_data key)).map (fun value =>
    match value with
    | .vlist items => pyJoin "\n" ((vlToList items).map pyStr)
    | v => pyStr v)

/-- The regex-over-flattened-text fallback shared by the education and
motivation extractors: first pattern with any match wins, first match
stripped. -/
def patternFallback (patterns : List (List String)) (all_text : String) : Option String :=
  (patterns.findSome? (fun pat =>
    match re_findall_line pat all_text with
    | [] => none
    | m :: _ => some m)).map pyStrip

/-- `ProfileNormalizer._extract_education_background`. -/
def extract_education_background (profile_data : PyDict) : String :=
  match directKeyText ["education", "education_background", "academic_background",
      "degrees", "university", "college", "school"] profile_data with
  | some text => text
  | none =>
    match patternFallback [["education"], ["degree"], ["university"]]
        (flatten_profile_to_text profile_data) with
    | some text => text
    | none => "Education background not specified."

/-- `ProfileNormalizer._extract_motivation`. -/
def extract_motivation (profile_data : PyDict) : String :=
  match directKeyText ["motivation", "goals", "objectives", "why", "interest",
      "passion", "career_goals", "aspirations", "purpose"] profile_data with
  | some text => text
  | none =>
    match patternFallback [["motivation"], ["goals"], ["why"]]
        (flatten_profile_to_text profile_data) with
    | some text => text
    | none => "Motivation not specified."

/-- `ProfileNormalizer.normalize`. -/
def normalize (profile_data : PyDict) : UserProfile :=
  { career_background := extract_career_background profile_data,
    education_background := extract_education_background profile_data,
    motivation := extract_motivation profile_data }

/-!
### `backend/utils/error_handler.py`

Python exceptions are modelled as `PyExc`: either a `JobAgentError` carrying
an `ErrorCategory`, or any other exception (`generic`).  The float delay
arithmetic of `retry_with_backoff` (`1.0`, `2.0`, `30.0` and
`min(base * factor**attempt, max)`) is exact on these values, so delays are
modelled as rationals.
-/

/-- `error_handler.RetryConfig`. -/
structure RetryConfig where
  max_attempts : Nat
  base_delay : ℚ
  max_delay : ℚ
  backoff_factor : ℚ
  retryable_errors : List ErrorCategory

/-- `RetryConfig()` with every constructor default of `error_handler.py`:
3 attempts, base delay 1.0, cap 30.0, factor 2.0, retryable categories
network/timeout/rate_limit. -/
def defaultRetryConfig : RetryConfig :=
  { max_attempts := 3, base_delay := 1, max_delay := 30, backoff_factor := 2,
    retryable_errors := [ErrorCategory.network, ErrorCategory.timeout,
      ErrorCategory.rate_limit] }

/-- One traced run of `retry_with_backoff`: the outcome (`ok (some a)` for a
returned value, `error e` for a raised exception, `ok none` for the
fall-off-the-end `return None` when `max_attempts = 0`) together with the
list of delays slept, in order. -/
def retryGo {α : Type} (attempts : Nat → Except PyExc α) (config : RetryConfig) :
    Nat → Nat → Option PyExc → List ℚ → Except PyExc (Option α) × List ℚ
  | _, 0, lastExc, delays =>
    -- the `for` loop is exhausted: `if last_exception: raise last_exception`
    (match lastExc with
     | some e => .error e
     | none => .ok none, delays)
  | attempt, fuel + 1, _, delays =>
    match attempts attempt with
    | .ok value => (.ok (some value), delays)
    | .error e =>
      match e with
      | .jobAgent category _ =>
        -- `except JobAgentError as e`
        if !(config.retryable_errors.contains category) then (.error e, delays)
        else if attempt == config.max_attempts - 1 then (.error e, delays)
        else
          let delay := min (config.base_delay * config.backoff_factor ^ attempt)
            config.max_delay
          retryGo attempts config (attempt + 1) fuel (some e) (delays ++ [delay])
      | .generic message =>
        -- `except Exception as e`
        if attempt == config.max_attempts - 1 then
          (.error (.jobAgent .unknown ("Unexpected error: " ++ message)), delays)
        else
          let delay := min (config.base_delay * config.backoff_factor ^ attempt)
            config.max_delay
          retryGo attempts config (attempt + 1) fuel (some e) (delays ++ [delay])

/-- `error_handler.retry_with_backoff`: `attempts k` is what the wrapped
call does on its `k`-th invocation (0-based).  Returns the final outcome and
the backoff delays slept. -/
def retry_with_backoff {α : Type} (attempts : Nat → Except PyExc α)
    (config : RetryConfig) : Except PyExc (Option α) × List ℚ :=
  retryGo attempts config 0 config.max_attempts none []

/-!
### `backend/agents/modificator.py` with the models of `schemas/models.py`

The LLM chain (`prompt | llm | parser`) is an external collaborator: it is a
parameter mapping the four formatted prompt inputs to a parsed JSON dict or
an exception.  `apply_modifications` additionally returns the trace of chain
invocations it made, so call counts and prompt contents are observable.
-/

/-- `schemas.models.CoverLetterResponse`. -/
structure CoverLetterResponse where
  title : String
  body : String
  key_points_used : List String

/-- `schemas.models.QuestionAnswerResponse` (`assumptions` defaults to `[]`,
`follow_up_question` to `None`). -/
structure QuestionAnswerResponse where
  answer : String
  assumptions : List String
  follow_up_question : Option String

/-- The `Union[CoverLetterResponse, QuestionAnswerResponse]` type of
`apply_modifications`' `original_content` parameter. -/
inductive Content where
  | cl (c : CoverLetterResponse)
  | qa (c : QuestionAnswerResponse)

/-- The `Union[CoverLetterResponse, QuestionAnswerResponse, Dict[str, Any]]`
type of `ModificationResponse.modified_output`. -/
inductive ModOutput where
  | cl (c : CoverLetterResponse)
  | qa (c : QuestionAnswerResponse)
  | raw (d : PyDict)

/-- `schemas.models.ModificationResponse`. -/
structure ModificationResponse where
  modified_output : ModOutput

/-- Inject an original content object into the response union. -/
def content_to_output : Content → ModOutput
  | .cl c => .cl c
  | .qa c => .qa c

/-- `schemas.models.FeedbackType` (the `STRUCTURE` member is spelled
`structural` because `structure` is a Lean keyword; its string value is
faithful). -/
inductive FeedbackType where
  | tone
  | alignment
  | clarity
  | emphasis
  | structural

/-- The string value of a `FeedbackType` member. -/
def feedbackTypeValue : FeedbackType → String
  | .tone => "tone"
  | .alignment => "alignment"
  | .clarity => "clarity"
  | .emphasis => "emphasis"
  | .structural => "structure"

/-- `schemas.models.FeedbackItem`. -/
structure FeedbackItem where
  type : FeedbackType
  suggestion : String

/-- `schemas.models.DataCollectorOutput`: its six declared fields
(`models.py` lines 43-64). -/
structure DataCollectorOutput where
  selected_profile_version : String
  relevant_skills : List String
  relevant_experience : List String
  relevant_education : List String
  motivational_alignment : String
  content_guidance : String

/-- pydantic v2 attribute access on a `DataCollectorOutput`: a declared
field's value (as a `Value`), or `AttributeError` for any other name (the
default `extra='ignore'` configuration stores nothing else on the model). -/
def dataCollectorGetAttr (p : DataCollectorOutput) (name : String) : Except PyExc Value :=
  if name == "selected_profile_version" then .ok (.s p.selected_profile_version)
  else if name == "relevant_skills" then .ok (.vlist (vlOfList (p.relevant_skills.map .s)))
  else if name == "relevant_experience" then .ok (.vlist (vlOfList (p.relevant_experience.map .s)))
  else if name == "relevant_education" then .ok (.vlist (vlOfList (p.relevant_education.map .s)))
  else if name == "motivational_alignment" then .ok (.s p.motivational_alignment)
  else if name == "content_guidance" then .ok (.s p.content_guidance)
  else .error (.generic ("AttributeError: " ++ name))

/-- The elements of a `Value` list, through `str`. -/
def valueStrItems : Value → List String
  | .vlist items => (vlToList items).map pyStr
  | _ => []

/-- `ModificatorAgent._format_original_content`. -/
def format_original_content : Content → String
  | .cl c =>
    "Cover Letter:\n\nTitle: " ++ c.title ++ "\n\nBody:\n" ++ c.body ++
      "\n\nKey Points Used:\n" ++
      pyJoin "\n" (c.key_points_used.map (fun point => "- " ++ point))
  | .qa c =>
    let formatted := "HR Question Answer:\n\nAnswer: " ++ c.answer ++ "\n"
    let formatted :=
      if !c.assumptions.isEmpty then
        formatted ++ "\nAssumptions:\n" ++
          pyJoin "\n" (c.assumptions.map (fun a => "- " ++ a))
      else formatted
    match c.follow_up_question with
    | some q => if q != "" then formatted ++ "\nFollow-up Question: " ++ q else formatted
    | none => formatted

/-- `ModificatorAgent._format_selected_feedback`. -/
def format_selected_feedback (feedback_items : List FeedbackItem) : String :=
  if feedback_items.isEmpty then "No feedback selected for application."
  else
    "Selected Feedback to Apply:\n" ++
      pyJoin "\n" (feedback_items.enum.map (fun p =>
        toString (p.1 + 1) ++ ". " ++ pyTitle (feedbackTypeValue p.2.type) ++ ": " ++
          p.2.suggestion))

/-- `ModificatorAgent._format_filtered_profile`, translated line by line;
`filtered_profile.target_requirements` and
`filtered_profile.target_responsibilities` go through pydantic attribute
access because `DataCollectorOutput` declares no such fields, so the first
of them raises `AttributeError`. -/
def format_filtered_profile (filtered_profile : DataCollectorOutput) :
    Except PyExc String := do
  let sections := ["Selected Profile Version: " ++ filtered_profile.selected_profile_version]
  let target_requirements ← dataCollectorGetAttr filtered_profile "target_requirements"
  let sections := sections ++
    (if pyTruthyV target_requirements then
      "Target Job Requirements (must address):" ::
        (valueStrItems target_requirements).map (fun req => "- " ++ req)
     else [])
  let target_responsibilities ← dataCollectorGetAttr filtered_profile "target_responsibilities"
  let sections := sections ++
    (if pyTruthyV target_responsibilities then
      "Target Responsibilities (must reflect):" ::
        (valueStrItems target_responsibilities).map (fun resp => "- " ++ resp)
     else [])
  let sections := sections ++
    (if filtered_profile.content_guidance != "" then
      ["Content Guidance (must follow):", filtered_profile.content_guidance]
     else [])
  let sections := sections ++
    (if !filtered_profile.relevant_skills.isEmpty then
      "Relevant Skills:" :: filtered_profile.relevant_skills.map (fun skill => "- " ++ skill)
     else [])
  let sections := sections ++
    (if !filtered_profile.relevant_experience.isEmpty then
      "Relevant Experience:" :: filtered_profile.relevant_experience.map (fun exp => "- " ++ exp)
     else [])
  let sections := sections ++
    (if !filtered_profile.relevant_education.isEmpty then
      "Relevant Education:" :: filtered_profile.relevant_education.map (fun edu => "- " ++ edu)
     else [])
  let sections := sections ++
    ["Motivational Alignment: " ++ filtered_profile.motivational_alignment]
  return pyJoin "\n\n" sections

/-- `ModificatorAgent._format_job_description`. -/
def format_job_description (job_desc : JobDescription) : String :=
  let sections :=
    (if pyTruthy job_desc.title then ["Title: " ++ job_desc.title.getD ""] else []) ++
    ["Role Summary: " ++ job_desc.role_summary] ++
    (if !job_desc.responsibilities.isEmpty then
      "Responsibilities:" :: (job_desc.responsibilities.take 5).map (fun resp => "- " ++ resp)
     else []) ++
    (if !job_desc.requirements.isEmpty then
      "Requirements:" :: (job_desc.requirements.take 5).map (fun req => "- " ++ req)
     else []) ++
    ["Company Context: " ++ job_desc.company_context]
  pyJoin "\n\n" sections

/-- pydantic v2 validation of a required `str` field. -/
def getStrField (result : PyDict) (key : String) : Except PyExc String :=
  match vdLookup result key with
  | some (.s t) => .ok t
  | _ => .error (.generic ("ValidationError: " ++ key))

/-- pydantic v2 validation of a `List[str]` field value. -/
def strListValue (v : Value) (key : String) : Except PyExc (List String) :=
  match v with
  | .vlist items =>
    if (vlToList items).all (fun item => match item with | .s _ => true | _ => false) then
      .ok ((vlToList items).filterMap (fun item => match item with | .s t => some t | _ => none))
    else .error (.generic ("ValidationError: " ++ key))
  | _ => .error (.generic ("ValidationError: " ++ key))

/-- `ModificatorAgent._validate_result`: coerce the chain's dict into the
model matching the original content's type (the raw-dict branch is
unreachable because `original_content` is typed
`Union[CoverLetterResponse, QuestionAnswerResponse]`). -/
def validate_result (original_content : Content) (result : PyDict) :
    Except PyExc ModOutput :=
  match original_content with
  | .cl _ => do
    let title ← getStrField result "title"
    let body ← getStrField result "body"
    let key_points_used ←
      match vdLookup result "key_points_used" with
      | some v => strListValue v "key_points_used"
      | none => .error (.generic "ValidationError: key_points_used")
    return ModOutput.cl ⟨title, body, key_points_used⟩
  | .qa _ => do
    let answer ← getStrField result "answer"
    let assumptions ←
      match vdLookup result "assumptions" with
      | some v => strListValue v "assumptions"
      | none => .ok []
    let follow_up_question ←
      match vdLookup result "follow_up_question" with
      | some (.s t) => .ok (some t)
      | some .null => .ok none
      | some _ => (.error (.generic "ValidationError: follow_up_question") :
          Except PyExc (Option String))
      | none => .ok none
    return ModOutput.qa ⟨answer, assumptions, follow_up_question⟩

/-- `ModificatorAgent._is_identical`: stripped equality of the one compared
field when the types line up, `False` otherwise. -/
def is_identical (original_content : Content) (new_content : ModOutput) : Bool :=
  match original_content, new_content with
  | .cl o, .cl n => pyStrip o.body == pyStrip n.body
  | .qa o, .qa n => pyStrip o.answer == pyStrip n.answer
  | _, _ => false

/-- One set of inputs handed to `chain.ainvoke`. -/
structure ChainInput where
  original_content : String
  selected_feedback : String
  filtered_profile : String
  job_description : String

/-- The retry instruction appended to the feedback text when the first
result is identical to the original. -/
def IMPORTANT_SUFFIX : String :=
  "\nIMPORTANT: The previous attempt matched the original. Apply each feedback item and change wording/structure so differences are visible."

/-- `ModificatorAgent.apply_modifications`: the whole `try` body, with the
enclosing `except Exception` returning the original content as fallback.
Returns the response together with the trace of chain invocations. -/
def apply_modifications (original_content : Content)
    (selected_feedback : List FeedbackItem) (filtered_profile : DataCollectorOutput)
    (job_description : JobDescription)
    (chain : ChainInput → Except PyExc PyDict) : ModificationResponse × List ChainInput :=
  let content_text := format_original_content original_content
  let feedback_text := format_selected_feedback selected_feedback
  match format_filtered_profile filtered_profile with
  | .error _ => ({ modified_output := content_to_output original_content }, [])
  | .ok profile_text =>
    let job_desc_text := format_job_description job_description
    let input0 : ChainInput :=
      { original_content := content_text, selected_feedback := feedback_text,
        filtered_profile := profile_text, job_description := job_desc_text }
    match chain input0 with
    | .error _ => ({ modified_output := content_to_output original_content }, [input0])
    | .ok result =>
      match validate_result original_content result with
      | .error _ => ({ modified_output := content_to_output original_content }, [input0])
      | .ok validated_result =>
        if is_identical original_content validated_result && !selected_feedback.isEmpty then
          let forced_feedback_text := feedback_text ++ IMPORTANT_SUFFIX
          let input1 : ChainInput := { input0 with selected_feedback := forced_feedback_text }
          match chain input1 with
          | .error _ =>
            ({ modified_output := content_to_output original_content }, [input0, input1])
          | .ok retry_result =>
            match validate_result original_content retry_result with
            | .error _ =>
              ({ modified_output := content_to_output original_content }, [input0, input1])
            | .ok validated_retry => ({ modified_output := validated_retry }, [input0, input1])
        else ({ modified_output := validated_result }, [input0])

/-!
### Concrete inputs used by counterexamples and witnesses
-/

/-- A raw profile whose only content is one key-value pair with a
`data pipeline` key, as in the specification's step-1 scenario. -/
def pipelineProfile (text : String) : PyDict :=
  ValueDict.cons "data pipeline experience" (Value.s text) .nil

/-- A raw profile whose career section carries recognizable
data-engineering content. -/
def demoProfile : PyDict :=
  ValueDict.cons "experience"
    (Value.vdict (ValueDict.cons "data engineering experience" (Value.s "built pipelines") .nil))
    .nil

/-- The `data_science` keyword list (checked before `data_engineering` by
the classifier). -/
def dsKeywords : List String :=
  ["data scientist", "data science", "machine learning", "ml engineer",
   "ai engineer", "artificial intelligence", "data analyst", "analytics"]

/-- A wrapped call that raises a plain (uncategorized) exception on its
first invocation and succeeds on the second. -/
def genericThenOk : Nat → Except PyExc Nat :=
  fun attempt => if attempt == 0 then .error (.generic "boom") else .ok 42

/-- A wrapped call that always raises a validation-categorized
`JobAgentError`. -/
def alwaysValidationError : Nat → Except PyExc Nat :=
  fun _ => .error (.jobAgent .validation "bad url")

/-- A wrapped call that always raises a network-categorized
`JobAgentError`. -/
def alwaysNetworkError : Nat → Except PyExc Nat :=
  fun _ => .error (.jobAgent .network "down")

/-- A parsed document whose only title source is the page `<title>`
element. -/
def onlyTitleSoup : Soup :=
  { h1 := none, job_title_class := none, position_title_class := none,
    job_title_testid := none, title_tag := some "Engineer Role | Acme Corp",
    text_content := "" }

/-- A well-formed URL whose host is harmless but whose query string contains
a denylisted social-media domain. -/
def socialQueryUrl : String := "https://example.com/share?u=facebook.com"

/-- A parsed document with no title source and an empty text stream (the
parse of the empty HTML input). -/
def emptySoup : Soup :=
  { h1 := none, job_title_class := none, position_title_class := none,
    job_title_testid := none, title_tag := none, text_content := "" }

/-- A URL with an unbalanced bracket in its netloc: `urlparse` rejects it
with `ValueError("Invalid IPv6 URL")`. -/
def badBracketUrl : String := "http://[foo"

/-!
## Theorems

Helper lemmas first, then one theorem (with counterexample / witness
companions where applicable) per specification claim.
-/

/-- `setVariant` only rewrites values; the key list is unchanged. -/
theorem setVariant_keys (vs : Variants) (k v : String) :
    (setVariant vs k v).map Prod.fst = vs.map Prod.fst := by
  induction vs with
  | nil => rfl
  | cons hd tl ih =>
    simp only [setVariant, List.map_cons] at ih ⊢
    rw [ih]
    by_cases h : hd.1 == k <;> simp [h]

/-- A fold whose step preserves the key list preserves the key list. -/
theorem foldl_keys {β : Type} (f : Variants → β → Variants) (l : List β) (vs : Variants)
    (hf : ∀ vs' b, (f vs' b).map Prod.fst = vs'.map Prod.fst) :
    (l.foldl f vs).map Prod.fst = vs.map Prod.fst := by
  induction l generalizing vs with
  | nil => rfl
  | cons hd tl ih => rw [List.foldl_cons, ih, hf]

/-- The dict-branch distribution preserves the key list. -/
theorem distributeDict_keys (cd : ValueDict) (vs : Variants) :
    (distributeDict cd vs).map Prod.fst = vs.map Prod.fst := by
  unfold distributeDict
  apply foldl_keys
  intro vs' vk
  cases hm : (vdKeys cd).filter
      (fun key => vk.2.any (fun keyword => pyIn keyword (pyLower key))) with
  | nil =>
    cases hl : vdLookup cd vk.1 with
    | none => simp [hm, hl]
    | some v => simp [hm, hl, setVariant_keys]
  | cons k rest =>
    cases hl : vdLookup cd k with
    | none => simp [hm, hl]
    | some v => simp [hm, hl, setVariant_keys]

/-- `assignGroups` preserves the key list. -/
theorem assignGroups_keys (variant_items : List (String × List String)) (vs : Variants) :
    (assignGroups variant_items vs).map Prod.fst = vs.map Prod.fst := by
  unfold assignGroups
  apply foldl_keys
  intro vs' b
  by_cases h : b.2.isEmpty <;> simp [h, setVariant_keys]

/-- The list distribution preserves the key list. -/
theorem distribute_list_keys (items : List Value) (vs : Variants) :
    (distribute_list_to_variants items vs).map Prod.fst = vs.map Prod.fst := by
  unfold distribute_list_to_variants
  cases he : emptyVariants (assignGroups (groupItems (items.map pyStr)).1 vs) with
  | nil => simp [he, assignGroups_keys]
  | cons k rest =>
    by_cases hu : (groupItems (items.map pyStr)).2.isEmpty <;>
      simp [he, hu, setVariant_keys, assignGroups_keys]

/-- The text distribution preserves the key list. -/
theorem distribute_text_keys (t : String) (vs : Variants) :
    (distribute_text_to_variants t vs).map Prod.fst = vs.map Prod.fst := by
  unfold distribute_text_to_variants
  apply foldl_keys
  intro vs' sec
  cases hc : classifyItem (pyLower sec) with
  | some variant => simp [hc, setVariant_keys]
  | none =>
    by_cases ha : anyTruthy vs'
    · simp [hc, ha]
    · cases he : emptyVariants vs' with
      | nil => simp [hc, ha, he]
      | cons k rest => simp [hc, ha, he, setVariant_keys]

/-- `applyCareerData` preserves the key list. -/
theorem applyCareerData_keys (career_data : Option Value) (vs : Variants) :
    (applyCareerData career_data vs).map Prod.fst = vs.map Prod.fst := by
  unfold applyCareerData
  cases career_data with
  | none => rfl
  | some cd =>
    by_cases ht : pyTruthyV cd
    · cases cd <;> simp [ht, distributeDict_keys, distribute_list_keys, distribute_text_keys]
    · simp [ht]

/-- The keyword arguments passed to `CareerBackground(**career_variants)`
are always exactly the four legacy slot names; in particular the declared
field name `careers` is never among them. -/
theorem career_variants_keys (profile_data : PyDict) :
    (career_variants profile_data).map Prod.fst =
      ["data_science", "data_engineering", "computer_vision", "cto"] := by
  have h1 := applyCareerData_keys (find_career_data profile_data) initVariants
  unfold career_variants
  simp only [initVariants] at h1 ⊢
  by_cases ha : anyTruthy (applyCareerData (find_career_data profile_data)
      [("data_science", none), ("data_engineering", none), ("computer_vision", none),
       ("cto", none)])
  · simp [ha, h1]
  · simp [ha, search_entire_profile, distribute_text_keys, h1]

/-- A string of positive length is not the empty string. -/
theorem ne_empty_of_length_pos (s : String) (h : 0 < s.length) : s ≠ "" := by
  intro he
  subst he
  exact absurd h (by decide)

/-- `_format_filtered_profile` raises on every input: its second statement
reads `filtered_profile.target_requirements`, and `DataCollectorOutput`
declares no such field, so pydantic v2 raises `AttributeError` before any
later statement runs. -/
theorem format_filtered_profile_raises (p : DataCollectorOutput) :
    format_filtered_profile p = .error (.generic "AttributeError: target_requirements") := rfl

/-- C1: the specification requires the canonical profile to carry every
declared career-variant slot (`data_science`, `data_engineering`,
`computer_vision`, `cto`), present even when unpopulated.  The code cannot
satisfy this: `CareerBackground` (models.py:18-21) declares only `careers`,
so the pydantic construction `CareerBackground(**career_variants)`
(profile_normalizer.py:102) discards all four slot keyword arguments and
`normalize` returns an empty `careers` mapping for every raw profile — the
second conjunct shows a profile whose extracted `data_engineering` content
is silently dropped from the final output. -/
theorem c1_career_slots_dropped :
    (∀ profile_data : PyDict, (normalize profile_data).career_background.careers = []) ∧
    lookup_variant (career_variants demoProfile) "data_engineering" = some "built pipelines" ∧
    (normalize demoProfile).career_background.careers = [] := by
  refine ⟨fun profile_data => rfl, rfl, rfl⟩

/-- C4: for every input text, the responsibilities and requirements lists
contain at most 10 items and no duplicate strings. -/
theorem c4_lists_capped_and_nodup (text : String) :
    ((extract_responsibilities text).length ≤ 10 ∧ (extract_responsibilities text).Nodup) ∧
    ((extract_requirements text).length ≤ 10 ∧ (extract_requirements text).Nodup) := by
  constructor
  · constructor
    · exact List.length_take_le 10 _
    · exact ((List.nodup_dedup _).sublist (List.take_sublist 10 _))
  · constructor
    · exact List.length_take_le 10 _
    · exact ((List.nodup_dedup _).sublist (List.take_sublist 10 _))

/-- C10: the social-media denylist of `_is_valid_url` is a substring check
over the whole lowercased URL, not over the host: this URL's host is
`example.com` (no denylisted domain occurs in it), yet
`validate_and_analyze_url` rejects the URL because its query string contains
`facebook.com`. -/
theorem c10_denylist_matches_whole_url :
    (validate_and_analyze_url socialQueryUrl).valid = false ∧
    (urlparse_scheme_netloc socialQueryUrl).2 = "example.com" ∧
    (["facebook.com", "twitter.com", "instagram.com", "youtube.com"].all
      (fun domain => !(pyIn domain (urlparse_scheme_netloc socialQueryUrl).2))) = true ∧
    pyIn "facebook.com" (pyLower socialQueryUrl) = true := by
  refine ⟨rfl, rfl, rfl, rfl⟩

/-- C7 counterexample: when the only title source is a `<title>` element
whose text is longer than 5 characters, the selector loop (whose fifth
selector is `title` itself) returns the whole text; the claimed
split-on-`|` never happens, so the result is not the first segment
`Engineer Role`. -/
theorem c7_counterexample :
    extract_title onlyTitleSoup "https://jobs.example/1" = some "Engineer Role | Acme Corp" ∧
    ("Engineer Role | Acme Corp" : String) ≠ "Engineer Role" := by
  exact ⟨rfl, by decide⟩

/-- C7 amended: every extracted title is longer than 5 characters and never
the empty string (absence is `none`); and when the only available source is
the page `<title>` with text longer than 5 characters, that text is
returned whole — unsplit — because the `title` selector accepts it before
the separator fallback is reached. -/
theorem c7_title_never_short_never_split :
    (∀ (soup : Soup) (url : String) (t : String),
        extract_title soup url = some t → 5 < t.length ∧ t ≠ "") ∧
    (∀ (title_text : String) (url : String), 5 < title_text.length →
        extract_title
          { h1 := none, job_title_class := none, position_title_class := none,
            job_title_testid := none, title_tag := some title_text, text_content := "" }
          url = some title_text) := by
  constructor
  · intro soup url t h
    unfold extract_title at h
    cases hsel : selectorTitle soup with
    | some title =>
      rw [hsel] at h
      injection h with h
      subst h
      have hp := List.find?_some hsel
      rw [Bool.and_eq_true] at hp
      refine ⟨of_decide_eq_true hp.2, ?_⟩
      simpa using hp.1
    | none =>
      rw [hsel] at h
      cases htt : soup.title_tag with
      | some title_text =>
        rw [htt] at h
        simp only [] at h
        split at h
        · next hlen =>
          injection h with h
          subst h
          exact ⟨hlen, ne_empty_of_length_pos _ (by omega)⟩
        · exact absurd h (by simp)
      | none =>
        rw [htt] at h
        simp only [] at h
        exact absurd h (by simp)
  · intro title_text url h5
    have hne : (title_text != "") = true := by
      simpa using ne_empty_of_length_pos title_text (by omega)
    unfold extract_title selectorTitle
    simp [List.find?, hne, h5]

/-- C7 witness: the amended theorem applied at concrete inputs — the
whole-`<title>` return of `onlyTitleSoup` satisfies the length invariant,
and a 15-character `<title>` is returned whole. -/
theorem c7_title_never_short_never_split_witness :
    (5 < ("Engineer Role | Acme Corp" : String).length ∧
      ("Engineer Role | Acme Corp" : String) ≠ "") ∧
    extract_title
      { h1 := none, job_title_class := none, position_title_class := none,
        job_title_testid := none, title_tag := some "Senior Engineer", text_content := "" }
      "https://x.example" = some "Senior Engineer" :=
  ⟨c7_title_never_short_never_split.1 onlyTitleSoup "https://jobs.example/1"
      "Engineer Role | Acme Corp" rfl,
   c7_title_never_short_never_split.2 "Senior Engineer" "https://x.example" (by decide)⟩

/-- C8 counterexample: a cleaned line of exactly 10 characters that starts
with neither `http` nor `www.` is discarded by `_parse_list_items` (the code
keeps only lines strictly longer than 10 characters), while the claim says
lines of at least 10 characters are kept. -/
theorem c8_counterexample :
    10 ≤ ("abcdefghij" : String).length ∧
    pyStartswith "abcdefghij" "http" = false ∧
    pyStartswith "abcdefghij" "www." = false ∧
    cleanLine "abcdefghij" = "abcdefghij" ∧
    parse_list_items "abcdefghij" = [] := by
  refine ⟨by decide, rfl, rfl, rfl, rfl⟩

/-- C8 amended: the items of `_parse_list_items` are exactly the
newline-separated lines that, after whitespace stripping and removal of one
bullet prefix and one numbering prefix, are strictly longer than 10
characters and start with neither `http` nor `www.`. -/
theorem c8_items_characterization (text : String) (item : String) :
    item ∈ parse_list_items text ↔
      ∃ line, line ∈ pySplitOn text "\n" ∧
        item = cleanLine line ∧
        10 < item.length ∧
        pyStartswith item "http" = false ∧ pyStartswith item "www." = false := by
  unfold parse_list_items
  rw [List.mem_filterMap]
  constructor
  · rintro ⟨line, hline, hf⟩
    refine ⟨line, hline, ?_⟩
    unfold keepItem at hf
    split at hf
    · next hcond =>
      injection hf with hf
      subst hf
      rw [Bool.and_eq_true, Bool.not_eq_true', Bool.or_eq_false_iff] at hcond
      exact ⟨rfl, of_decide_eq_true hcond.1, hcond.2.1, hcond.2.2⟩
    · exact absurd hf (by simp)
  · rintro ⟨line, hline, heq, hlen, h1, h2⟩
    refine ⟨line, hline, ?_⟩
    unfold keepItem
    rw [heq] at hlen h1 h2
    simp [hlen, h1, h2, heq]

/-- C8 witness: the characterization applied at a concrete text whose one
line survives cleaning. -/
theorem c8_items_characterization_witness :
    ∃ line, line ∈ pySplitOn "- Build APIs and services" "\n" ∧
      ("Build APIs and services" : String) = cleanLine line ∧
      10 < ("Build APIs and services" : String).length ∧
      pyStartswith "Build APIs and services" "http" = false ∧
      pyStartswith "Build APIs and services" "www." = false :=
  (c8_items_characterization "- Build APIs and services" "Build APIs and services").mp
    (by decide)

/-- Every branch of `_extract_role_summary` returns a string of positive
length: an accepted section match is longer than 50 characters, the
title-plus-lines fallback contains the literal `. `, and the synthetic
sentence contains fixed words. -/
theorem extract_role_summary_length_pos (text : String) (title : Option String) :
    0 < (extract_role_summary text title).length := by
  unfold extract_role_summary
  cases hfind : summaryMatch text with
  | some summary =>
    simp only [hfind]
    rw [summaryMatch] at hfind
    have h50 : 50 < summary.length := by simpa using List.find?_some hfind
    omega
  | none =>
    simp only [hfind]
    split
    · next s heq =>
      split at heq
      · split at heq
        · next hp =>
          injection heq with heq
          subst heq
          rw [String.length_append, String.length_append]
          have h2 : (". " : String).length = 2 := rfl
          omega
        · exact absurd heq (by simp)
      · exact absurd heq (by simp)
    · rw [String.length_append, String.length_append]
      have h10 : ("This is a " : String).length = 10 := rfl
      omega

/-- Every successful branch of `_extract_company_context` returns a string
of positive length. -/
theorem extract_company_context_ok_pos (text : String) (url : String) (c : String)
    (h : extract_company_context text url = .ok c) : 0 < c.length := by
  unfold extract_company_context at h
  cases hfind : companyMatch text with
  | some context =>
    rw [hfind] at h
    simp only [] at h
    injection h with h
    subst h
    rw [companyMatch] at hfind
    have h30 : 30 < context.length := by simpa using List.find?_some hfind
    omega
  | none =>
    rw [hfind] at h
    simp only [] at h
    cases hp : urlparseE url with
    | error e => rw [hp] at h; simp only [] at h; exact absurd h (by simp)
    | ok parsed =>
      rw [hp] at h
      simp only [] at h
      cases hd : domain_hints.lookup (companyDomain parsed.2) with
      | some name =>
        rw [hd] at h
        simp only [] at h
        injection h with h
        subst h
        rw [String.length_append, String.length_append]
        have h27 : ("This position is posted on " : String).length = 27 := rfl
        omega
      | none =>
        rw [hd] at h
        simp only [] at h
        injection h with h
        subst h
        rw [String.length_append, String.length_append]
        have h22 : ("This is a position at " : String).length = 22 := rfl
        omega

/-- A successful `urlparse` returns exactly the scheme/netloc projection
(the bracket checks only decide between returning it and raising). -/
theorem urlparseE_ok_eq (url : String) (p : String × String)
    (hp : urlparseE url = .ok p) : p = urlparse_scheme_netloc url := by
  simp only [urlparseE] at hp
  split at hp
  · exact absurd hp (by simp)
  · split at hp
    · split at hp
      · injection hp with hp
        exact hp.symm
      · exact absurd hp (by simp)
    · injection hp with hp
      exact hp.symm

/-- `urlparseE_ok_eq` witness at a concrete URL. -/
theorem urlparseE_ok_eq_witness :
    urlparseE "https://example.com/a" = .ok ("https", "example.com") ∧
      (("https", "example.com") : String × String) =
        urlparse_scheme_netloc "https://example.com/a" :=
  ⟨rfl, urlparseE_ok_eq "https://example.com/a" ("https", "example.com") rfl⟩

/-- When `_is_valid_url` accepts a URL, `urlparse` does not raise on it (the
guard runs urlparse inside `try/except` and returns `False` on the
`ValueError`), and its result is the scheme/netloc projection.  This is why
`_detect_provider` and `_get_platform_info` — reached only behind the guard
in `validate_and_analyze_url` and `load` — can call `urlparse` bare. -/
theorem is_valid_url_parses (url : String) (h : is_valid_url url = true) :
    urlparseE url = .ok (urlparse_scheme_netloc url) := by
  unfold is_valid_url at h
  cases hp : urlparseE url with
  | error e => rw [hp] at h; simp at h
  | ok parsed =>
    have he := urlparseE_ok_eq url parsed hp
    subst he
    rfl

/-- `is_valid_url_parses` witness: a concrete accepted URL on which
`urlparse` succeeds with the projected scheme and netloc. -/
theorem is_valid_url_parses_witness :
    is_valid_url "https://www.acme.io/careers/42" = true ∧
      urlparseE "https://www.acme.io/careers/42" =
        .ok (urlparse_scheme_netloc "https://www.acme.io/careers/42") :=
  ⟨rfl, is_valid_url_parses "https://www.acme.io/careers/42" rfl⟩

/-- C2, counterexample: the claim says extraction returns without raising
for *every* source URL, but `_extract_company_context` calls `urlparse(url)`
(job_description_loader.py:409) outside any `try/except`, and `urlparse`
raises `ValueError("Invalid IPv6 URL")` on a netloc with an unbalanced
bracket such as `http://[foo`.  On the empty HTML input (no sections match,
so the URL fallback runs) the extraction therefore raises instead of
returning a job record. -/
theorem c2_counterexample :
    urlparseE badBracketUrl = .error (.generic "ValueError: Invalid IPv6 URL") ∧
    extract_company_context "" badBracketUrl =
      .error (.generic "ValueError: Invalid IPv6 URL") ∧
    parse_html_content emptySoup badBracketUrl =
      .error (.generic "ValueError: Invalid IPv6 URL") ∧
    is_valid_url badBracketUrl = false := by
  refine ⟨rfl, rfl, rfl, rfl⟩

/-- C2, amended: on URLs where the urlparse model is exact (ASCII, no
control characters), whenever the extraction does return a job record its
`role_summary` and `company_context` are non-empty; and the extraction does
return one — it can only raise through `urlparse` in the company-context
fallback — for every URL `urlparse` accepts, in particular for every URL
passing the `_is_valid_url` guard that precedes extraction in `load`. -/
theorem c2_nonempty_and_total_on_parseable_urls (soup : Soup) (url : String)
    (hurl : sanitizedUrl url = true) :
    (∀ jd, parse_html_content soup url = .ok jd →
        jd.role_summary ≠ "" ∧ jd.company_context ≠ "") ∧
    (∀ p, urlparseE url = .ok p → ∃ jd, parse_html_content soup url = .ok jd) ∧
    (is_valid_url url = true → ∃ jd, parse_html_content soup url = .ok jd) := by
  have hnoraise : ∀ p, urlparseE url = .ok p →
      ∃ jd, parse_html_content soup url = .ok jd := by
    intro p hp
    have hcc : ∃ cc, extract_company_context soup.text_content url = .ok cc := by
      unfold extract_company_context
      cases hcm : companyMatch soup.text_content with
      | some context => exact ⟨context, rfl⟩
      | none =>
        rw [hp]
        simp only []
        cases domain_hints.lookup (companyDomain p.2) with
        | some name => exact ⟨_, rfl⟩
        | none => exact ⟨_, rfl⟩
    obtain ⟨cc, hcc⟩ := hcc
    simp only [parse_html_content]
    rw [hcc]
    exact ⟨_, rfl⟩
  refine ⟨?_, hnoraise, ?_⟩
  · intro jd hjd
    simp only [parse_html_content] at hjd
    cases hcc : extract_company_context soup.text_content url with
    | error e => rw [hcc] at hjd; simp only [] at hjd; exact absurd hjd (by simp)
    | ok cc =>
      rw [hcc] at hjd
      simp only [] at hjd
      injection hjd with hjd
      subst hjd
      constructor
      · exact ne_empty_of_length_pos _ (extract_role_summary_length_pos _ _)
      · exact ne_empty_of_length_pos _ (extract_company_context_ok_pos _ _ _ hcc)
  · intro hvalid
    unfold is_valid_url at hvalid
    cases hp : urlparseE url with
    | error e => rw [hp] at hvalid; simp at hvalid
    | ok parsed => exact hnoraise parsed hp

/-- C2 witness: the amended theorem applied at a concrete sanitized URL and
the empty parse, with a record actually produced and its two fields
non-empty. -/
theorem c2_nonempty_and_total_on_parseable_urls_witness :
    sanitizedUrl "https://www.acme.io/careers/42" = true ∧
    (∃ jd, parse_html_content emptySoup "https://www.acme.io/careers/42" = .ok jd) ∧
    (∀ jd, parse_html_content emptySoup "https://www.acme.io/careers/42" = .ok jd →
        jd.role_summary ≠ "" ∧ jd.company_context ≠ "") := by
  have h := c2_nonempty_and_total_on_parseable_urls emptySoup
    "https://www.acme.io/careers/42" (by decide)
  exact ⟨by decide, h.2.2 rfl, h.1⟩

/-- C3: the specified identical-output retry can never run.  The retry logic
is present in `apply_modifications` (modificator.py:109-121), but the
formatting step that precedes every chain call reads the undeclared fields
`target_requirements`/`target_responsibilities` of `DataCollectorOutput`
(modificator.py:221,226 against models.py:43-64), so every invocation raises
`AttributeError` before the modification stage is ever invoked and the
`except` branch returns the original content: the chain-call trace is empty
and no retry is ever issued — for any original content, feedback selection,
profile, job description and chain behaviour. -/
theorem c3_modification_stage_never_invoked (original_content : Content)
    (selected_feedback : List FeedbackItem) (filtered_profile : DataCollectorOutput)
    (job_description : JobDescription) (chain : ChainInput → Except PyExc PyDict) :
    apply_modifications original_content selected_feedback filtered_profile
        job_description chain =
      ({ modified_output := content_to_output original_content }, []) := by
  unfold apply_modifications
  rw [format_filtered_profile_raises]

/-- C9: `apply_modifications` always returns a `ModificationResponse` (the
embedding is a total function, mirroring the enclosing `try/except
Exception`), and whenever an internal step raises — which the formatting
step in fact always does, see `format_filtered_profile_raises` — the
returned `modified_output` is exactly the original content object,
unchanged. -/
theorem c9_exception_falls_back_to_original (original_content : Content)
    (selected_feedback : List FeedbackItem) (filtered_profile : DataCollectorOutput)
    (job_description : JobDescription) (chain : ChainInput → Except PyExc PyDict) :
    (apply_modifications original_content selected_feedback filtered_profile
        job_description chain).1.modified_output = content_to_output original_content := by
  unfold apply_modifications
  rw [format_filtered_profile_raises]

/-- C6: categorized retry policy versus the uncategorized-exception slip.
The second and third conjuncts confirm the categorized behaviour: a
validation-categorized failure propagates immediately (no sleep, no retry),
and a network-categorized failure is retried with delays
`min(1·2^k, 30) = 1, 2` until the 3 attempts are exhausted.  The first
conjunct is the divergence: a plain uncategorized exception on the first
attempt is also slept on and retried (the call returns the second attempt's
value after one 1-second backoff), although the code's own comment says
`Don't retry unknown exceptions` and the specification restricts retry to
the network/timeout/rate-limit categories. -/
theorem c6_uncategorized_exception_retried :
    retry_with_backoff genericThenOk defaultRetryConfig = (.ok (some 42), [1]) ∧
    retry_with_backoff alwaysValidationError defaultRetryConfig =
      (.error (.jobAgent .validation "bad url"), []) ∧
    retry_with_backoff alwaysNetworkError defaultRetryConfig =
      (.error (.jobAgent .network "down"), [1, 2]) := by
  refine ⟨?_, rfl, ?_⟩
  · simp [retry_with_backoff, retryGo, genericThenOk, defaultRetryConfig]
  · simp [retry_with_backoff, retryGo, alwaysNetworkError, defaultRetryConfig]
    norm_num

/-- C5 counterexample: on the profile whose only content is
`data pipeline experience` mapped to text, `_find_career_data` locates
nothing — the key is not one of the conventional career keys it looks up
exactly, and the value is not a dict — so the step-1 direct-key match can
never be the assigning strategy; and in the final canonical profile nothing
is assigned at all (the careers mapping is empty, see C1).  The assignment
the claim describes only exists on the intermediate `career_variants`,
produced by the global text-distribution fallback. -/
theorem c5_counterexample :
    find_career_data (pipelineProfile "built warehouse pipelines at Acme") = none ∧
    (normalize (pipelineProfile "built warehouse pipelines at Acme")).career_background.careers
      = [] ∧
    lookup_variant (career_variants (pipelineProfile "built warehouse pipelines at Acme"))
        "data_engineering" =
      some "data pipeline experience: built warehouse pipelines at Acme" := by
  refine ⟨rfl, rfl, rfl⟩

/-- C5 amended: for the profile `\x7b"data pipeline experience": t\x7d`,
`_find_career_data` returns `None` (so the direct-key step-1 match never
fires), and the flattened text `data pipeline experience: t` is assigned to
the `data_engineering` slot of the intermediate `career_variants` map by the
global-fallback text distribution — provided the flattened text forms a
single section, contains no `data_science` keyword (checked first), and
contains the `data_engineering` keyword `data pipeline` (it always does via
the key, witnessed concretely below).  The slot is then dropped from the
final canonical profile (C1). -/
theorem c5_fallback_assigns_data_engineering (t : String)
    (H1 : re_split_sections (flatten_profile_to_text (pipelineProfile t)) =
      [flatten_profile_to_text (pipelineProfile t)])
    (H2 : dsKeywords.all
      (fun kw => !(pyIn kw (pyLower (flatten_profile_to_text (pipelineProfile t))))) = true)
    (H3 : pyIn "data pipeline" (pyLower (flatten_profile_to_text (pipelineProfile t))) = true) :
    find_career_data (pipelineProfile t) = none ∧
    lookup_variant (career_variants (pipelineProfile t)) "data_engineering" =
      some (pyStrip (flatten_profile_to_text (pipelineProfile t))) := by
  have hf : find_career_data (pipelineProfile t) = none := rfl
  refine ⟨hf, ?_⟩
  have hclass : classifyItem (pyLower (flatten_profile_to_text (pipelineProfile t))) =
      some "data_engineering" := by
    unfold classifyItem CAREER_KEYWORDS
    simp only [dsKeywords] at H2
    rw [List.find?_cons_of_neg, List.find?_cons_of_pos]
    · rfl
    · exact List.any_eq_true.mpr ⟨"data pipeline", by simp, H3⟩
    · intro hpos
      rcases List.any_eq_true.mp hpos with ⟨kw, hkw, hin⟩
      have := List.all_eq_true.mp H2 kw hkw
      simp only [Bool.not_eq_true'] at this
      rw [this] at hin
      exact absurd hin (by simp)
  have happly : applyCareerData (find_career_data (pipelineProfile t)) initVariants =
      initVariants := by rw [hf]; rfl
  have ha : anyTruthy initVariants = false := rfl
  unfold career_variants
  simp only [happly, ha, Bool.not_false]
  rw [if_pos trivial]
  unfold search_entire_profile distribute_text_to_variants
  rw [H1, List.foldl_cons, List.foldl_nil, hclass]
  rfl

/-- C5 witness: the amended theorem instantiated at the concrete text
`built warehouse pipelines at Acme`, all three side conditions checked by
evaluation. -/
theorem c5_fallback_assigns_data_engineering_witness :
    lookup_variant (career_variants (pipelineProfile "built warehouse pipelines at Acme"))
        "data_engineering" =
      some (pyStrip (flatten_profile_to_text
        (pipelineProfile "built warehouse pipelines at Acme"))) :=
  (c5_fallback_assigns_data_engineering "built warehouse pipelines at Acme"
    rfl rfl rfl).2

end JobAgent
